import Mathlib

/-!
Verification development for the `bods2loki` service: a shallow embedding of
the SIRI-VM XML parser (`pkg/parser`), the per-vehicle JSON serialization
(`pkg/loki/client.go`, `pkg/types/bus_data.go`) and the per-cycle
orchestration (`pkg/pipeline/pipeline.go`), with theorems settling the
specified behavioural properties.

Modelling conventions:
* `mxj.NewMapXml` produces Go `map[string]interface{}` trees whose values are
  strings, nested maps, or `[]interface{}` slices.  These are embedded as the
  inductive `XVal`; a Go map is an association list with unique keys, and a
  Go type assertion `x.(T)` is a shape test on the looked-up value.
* Go `float64` values are embedded as `Rat`: no claim depends on floating
  point rounding, only on zero/non-zero tests and on which values are copied.
* A Go panic (an abnormal termination, not an error return) is embedded as
  `Option.none` propagating out of the function that panics.
* JSON objects are embedded as ordered key/value lists; a struct field tagged
  `omitempty` contributes its key only when the field differs from its Go
  zero value, exactly as `encoding/json` behaves.
-/

/-- Generic XML-as-map value, as produced by `mxj.NewMapXml`:
a Go `interface{}` holding a string, a `[]interface{}`, a
`map[string]interface{}`, or anything else (embedded as `null`). -/
inductive XVal where
  | null : XVal
  | str : String → XVal
  | arr : List XVal → XVal
  | obj : List (String × XVal) → XVal

/-- Association-list lookup, first match: Go map indexing `m[k]`
(keys of a Go map are unique, so first-match lookup is faithful). -/
def lookupX : List (String × XVal) → String → Option XVal
  | [], _ => none
  | (k', v) :: rest, k => if k' = k then some v else lookupX rest k

/-- Go type assertion `m[k].(map[string]interface{})`: the comma-ok form
yields the map exactly when the key is present with an object value. -/
def objField (m : List (String × XVal)) (k : String) : Option (List (String × XVal)) :=
  match lookupX m k with
  | some (XVal.obj o) => some o
  | _ => none

/-- Go type assertion `m[k].(string)`: the comma-ok form yields the string
exactly when the key is present with a string value. -/
def strField (m : List (String × XVal)) (k : String) : Option String :=
  match lookupX m k with
  | some (XVal.str s) => some s
  | _ => none

/-- The value the Go comma-ok idiom `if s, ok := m[k].(string); ok { x = s }`
leaves in a string field that started at its zero value `""`. -/
def strFieldD (m : List (String × XVal)) (k : String) : String :=
  (strField m k).getD ""

/-- One replacement pass of Go `strings.Replace(s, old, new, -1)` for a
non-empty pattern: scan left to right, replacing each leftmost
non-overlapping occurrence.  The `fuel` argument makes the recursion
structural; `fuel = s.length` suffices because every step consumes at least
one character of `s`. -/
def goReplaceAux (pat rep : List Char) : Nat → List Char → List Char
  | _, [] => []
  | 0, s => s
  | fuel + 1, c :: rest =>
    if pat.isPrefixOf (c :: rest) then
      rep ++ goReplaceAux pat rep fuel ((c :: rest).drop pat.length)
    else
      c :: goReplaceAux pat rep fuel rest

/-- Go `strings.ReplaceAll(s, old, new)`.  For an empty `old`, Go matches
before every character and at the end of the string. -/
def stringsReplaceAll (s old new : String) : String :=
  if old = "" then
    String.mk (new.data ++ s.data.foldr (fun c acc => c :: (new.data ++ acc)) [])
  else
    String.mk (goReplaceAux old.data new.data s.data.length s.data)

/-- `formatStopName` (pkg/parser/xml_parser.go, and identically in the
extended parser): empty input short-circuits; otherwise replace every
`"__"` with `" - "`, then every remaining `"_"` with `" "`. -/
def formatStopName (name : String) : String :=
  if name = "" then ""
  else stringsReplaceAll (stringsReplaceAll name "__" " - ") "_" " "

example : formatStopName "Lyde_Green__Science_Park" = "Lyde Green - Science Park" := by decide
example : formatStopName "A__B__C" = "A - B - C" := by decide
example : formatStopName "" = "" := by rfl
example : formatStopName "___" = " -  " := by decide

/-- Leading run of decimal digits of a character list, with the remainder. -/
def takeDigits : List Char → List Char × List Char
  | [] => ([], [])
  | c :: rest =>
    if c.isDigit then
      let (d, r) := takeDigits rest
      (c :: d, r)
    else ([], c :: rest)

/-- Optional leading sign; returns whether the value is negated. -/
def takeSign : List Char → Bool × List Char
  | '-' :: rest => (true, rest)
  | '+' :: rest => (false, rest)
  | s => (false, s)

/-- Value of a digit run. -/
def digitsToNat (ds : List Char) : Nat :=
  ds.foldl (fun a c => a * 10 + (c.toNat - 48)) 0

/-- Go `strings.TrimSpace`: drop leading and trailing whitespace. -/
def trimSpace (cs : List Char) : List Char :=
  ((cs.dropWhile Char.isWhitespace).reverse.dropWhile Char.isWhitespace).reverse

/-- `parseFloat` (xml_parser.go): `strings.TrimSpace` then `fmt.Sscanf %f`.
Succeeds on a leading decimal number (optional sign, digits, optional
fraction, optional exponent), ignoring trailing input as `Sscanf` does;
fails when no digit is found.  The non-finite and hexadecimal float forms
accepted by `Sscanf` are not modelled: no claim depends on numeric values,
only on which strings are copied and on zero tests. -/
def parseFloat (s : String) : Option Rat :=
  let cs := trimSpace s.toList
  let (neg, cs1) := takeSign cs
  let (ip, cs2) := takeDigits cs1
  let (fp, cs3) :=
    match cs2 with
    | '.' :: r => takeDigits r
    | _ => ([], cs2)
  if ip.isEmpty && fp.isEmpty then none
  else
    let base : Rat := (digitsToNat ip : Rat) + (digitsToNat fp : Rat) / (10 : Rat) ^ fp.length
    let scaled : Rat :=
      match cs3 with
      | 'e' :: r | 'E' :: r =>
        let (eneg, r1) := takeSign r
        let (ed, _) := takeDigits r1
        if ed.isEmpty then base
        else if eneg then base / (10 : Rat) ^ digitsToNat ed
        else base * (10 : Rat) ^ digitsToNat ed
      | _ => base
    some (if neg then -scaled else scaled)

/-- `parseInt` (extended parser): `strings.TrimSpace` then `fmt.Sscanf %d`:
a leading optionally-signed digit run, trailing input ignored. -/
def parseInt (s : String) : Option Int :=
  let (neg, cs) := takeSign (trimSpace s.toList)
  let (ds, _) := takeDigits cs
  if ds.isEmpty then none
  else some (if neg then -(digitsToNat ds : Int) else (digitsToNat ds : Int))

/-- `types.StopCall` (pkg/types/bus_data.go).  Defaults are the Go zero
values the struct literal `&types.StopCall{}` starts from. -/
structure StopCall where
  StopPointRef : String := ""
  StopPointName : String := ""
  AimedArrivalTime : String := ""
  ExpectedArrivalTime : String := ""
  AimedDepartureTime : String := ""
  ExpectedDepartureTime : String := ""
  VisitNumber : Int := 0
deriving DecidableEq, Repr

/-- `types.VehicleActivity` (pkg/types/bus_data.go), Go float64 fields as
`Rat`.  Defaults are the Go zero values of `&types.VehicleActivity{}`. -/
structure VehicleActivity where
  VehicleRef : String := ""
  LineRef : String := ""
  DirectionRef : String := ""
  OperatorRef : String := ""
  OriginRef : String := ""
  OriginName : String := ""
  DestinationRef : String := ""
  DestinationName : String := ""
  OriginAimedDepartureTime : String := ""
  DestinationAimedArrivalTime : String := ""
  Longitude : Rat := 0
  Latitude : Rat := 0
  RecordedAtTime : String := ""
  ValidUntilTime : String := ""
  BusImage : String := ""
  Bearing : Rat := 0
  Velocity : Rat := 0
  Occupancy : String := ""
  ProgressStatus : String := ""
  PublishedLineName : String := ""
  BlockRef : String := ""
  MonitoredCall : Option StopCall := none
  OnwardCalls : List StopCall := []
deriving DecidableEq, Repr

/-- `parseStopCall` (extended parser, lines 466-499): populate a zero
`StopCall` field by field from the comma-ok string assertions, then return
nil — embedded as `none` — when neither a stop ref nor a stop name was
extracted. -/
def parseStopCall (callData : List (String × XVal)) : Option StopCall :=
  let call : StopCall := {
    StopPointRef := strFieldD callData "StopPointRef"
    StopPointName :=
      match strField callData "StopPointName" with
      | some stopName => formatStopName stopName
      | none => ""
    AimedArrivalTime := strFieldD callData "AimedArrivalTime"
    ExpectedArrivalTime := strFieldD callData "ExpectedArrivalTime"
    AimedDepartureTime := strFieldD callData "AimedDepartureTime"
    ExpectedDepartureTime := strFieldD callData "ExpectedDepartureTime"
    VisitNumber :=
      match strField callData "VisitNumber" with
      | some visitNum => (parseInt visitNum).getD 0
      | none => 0 }
  if call.StopPointRef = "" ∧ call.StopPointName = "" then none else some call

/-- `parseOnwardCalls` (extended parser, lines 501-522): the `OnwardCall`
child may be a list or a lone object; each object element goes through
`parseStopCall` and nil results are dropped. -/
def parseOnwardCalls (onwardCallsData : List (String × XVal)) : List StopCall :=
  match lookupX onwardCallsData "OnwardCall" with
  | some (XVal.arr oc) =>
    oc.filterMap fun item =>
      match item with
      | XVal.obj callMap => parseStopCall callMap
      | _ => none
  | some (XVal.obj oc) =>
    match parseStopCall oc with
    | some call => [call]
    | none => []
  | _ => []

/-- `GenerateCompactBusImage` (bus image generator).  The Go function
renders a fixed SVG template and base64-encodes it; while filling the
template it evaluates `strings.ToUpper(direction[:2])`, which panics with
a slice-bounds error whenever `direction` is shorter than two bytes.  The
panic is embedded as `none`.  The icon payload is presentational and is
inspected by no property, so it is embedded as a deterministic marker
string of the two inputs rather than as the literal SVG/base64 bytes. -/
def GenerateCompactBusImage (lineRef direction : String) : Option String :=
  if direction.utf8ByteSize < 2 then none
  else some ("data:image/svg+xml;base64,<svg:" ++ lineRef ++ "|" ++ direction ++ ">")

/-- `parseVehicleActivity` (extended parser, lines 313-437).  Field-by-field
population of a zero `VehicleActivity` via comma-ok assertions; when
`MonitoredVehicleJourney` is missing the partially-filled record is
returned early (Go line 327), skipping image generation.  `none` embeds
the Go panic raised inside `GenerateCompactBusImage`.  An absent string
key and a present-but-empty one both leave `""` in the field, so
`formatStopName (strFieldD ..)` coincides with Go's conditional
assignment (`formatStopName "" = ""`). -/
def parseVehicleActivity (activity : List (String × XVal)) : Option VehicleActivity :=
  let v0 : VehicleActivity := {
    RecordedAtTime := strFieldD activity "RecordedAtTime"
    ValidUntilTime := strFieldD activity "ValidUntilTime" }
  match objField activity "MonitoredVehicleJourney" with
  | none => some v0
  | some mvj =>
    let vRef0 := strFieldD mvj "VehicleRef"
    let vehicleRef :=
      match objField mvj "FramedVehicleJourneyRef" with
      | some fvjr =>
        match strField fvjr "DatedVehicleJourneyRef" with
        | some datedVJRef => if vRef0 = "" then datedVJRef else vRef0
        | none => vRef0
      | none => vRef0
    let lineRef := strFieldD mvj "LineRef"
    let dirRef := strFieldD mvj "DirectionRef"
    let location := objField mvj "VehicleLocation"
    let floatStrD : Option String → Rat := fun s? =>
      match s? with
      | some s => (parseFloat s).getD 0
      | none => 0
    match GenerateCompactBusImage lineRef dirRef with
    | none => none
    | some img =>
      some { v0 with
        LineRef := lineRef
        DirectionRef := dirRef
        OperatorRef := strFieldD mvj "OperatorRef"
        VehicleRef := vehicleRef
        OriginRef := strFieldD mvj "OriginRef"
        OriginName := formatStopName (strFieldD mvj "OriginName")
        DestinationRef := strFieldD mvj "DestinationRef"
        DestinationName := formatStopName (strFieldD mvj "DestinationName")
        OriginAimedDepartureTime := strFieldD mvj "OriginAimedDepartureTime"
        DestinationAimedArrivalTime := strFieldD mvj "DestinationAimedArrivalTime"
        Longitude := floatStrD (location.bind (strField · "Longitude"))
        Latitude := floatStrD (location.bind (strField · "Latitude"))
        Bearing := floatStrD (location.bind (strField · "Bearing"))
        Velocity := floatStrD (strField mvj "Velocity")
        Occupancy := strFieldD mvj "Occupancy"
        ProgressStatus := strFieldD mvj "ProgressStatus"
        PublishedLineName := strFieldD mvj "PublishedLineName"
        BlockRef := strFieldD mvj "BlockRef"
        MonitoredCall := (objField mvj "MonitoredCall").bind parseStopCall
        OnwardCalls :=
          match objField mvj "OnwardCalls" with
          | some oc => parseOnwardCalls oc
          | none => []
        BusImage := img }

/-- Per-item loop of `extractVehicleActivities` (lines 294-304): non-object
items are skipped (`continue`); for object items `parseVehicleActivity`
either yields a record — the Go function never returns nil — or panics,
which aborts the whole extraction (`none`). -/
def processActivityItems : List XVal → Option (List VehicleActivity)
  | [] => some []
  | activity :: rest =>
    match activity with
    | XVal.obj activityMap =>
      match parseVehicleActivity activityMap with
      | none => none
      | some vehicle => (processActivityItems rest).map (vehicle :: ·)
    | _ => processActivityItems rest

/-- Normalization step of `extractVehicleActivities` (lines 283-292): the
`VehicleActivity` child may be a list or a lone object; anything else
yields no vehicles. -/
def extractFromVMD (vmDelivery : List (String × XVal)) : Option (List VehicleActivity) :=
  match lookupX vmDelivery "VehicleActivity" with
  | some (XVal.arr vehicleActivities) => processActivityItems vehicleActivities
  | some (XVal.obj va) => processActivityItems [XVal.obj va]
  | _ => some []

/-- The fixed navigation path of `extractVehicleActivities` (lines 266-281):
root map → `Siri` → `ServiceDelivery` → `VehicleMonitoringDelivery`, each
step a comma-ok map assertion. -/
def navigateToVMD (xmlMap : List (String × XVal)) : Option (List (String × XVal)) :=
  (objField xmlMap "Siri").bind fun siri =>
    (objField siri "ServiceDelivery").bind fun serviceDelivery =>
      objField serviceDelivery "VehicleMonitoringDelivery"

/-- `extractVehicleActivities` (extended parser, lines 260-311): a failed
navigation step returns the empty vehicle list with a nil error. -/
def extractVehicleActivities (xmlMap : List (String × XVal)) : Option (List VehicleActivity) :=
  match navigateToVMD xmlMap with
  | none => some []
  | some vmDelivery => extractFromVMD vmDelivery

/-- `types.ParsedBusData` (pkg/types/bus_data.go). -/
structure ParsedBusData where
  LineRef : String := ""
  Timestamp : String := ""
  VehicleData : List VehicleActivity := []
  RawData : List (String × XVal) := []

/-- `ParseBusData` (extended parser, lines 225-258).  The outer `Option`
embeds a panic escaping the extraction; the `Except` is the Go error
return.  `xmlResult` stands for the outcome of the external
`mxj.NewMapXml` library call on the raw bytes, and `timestamp` for the
already-formatted `busData.Timestamp` capture time. -/
def ParseBusData (lineRef timestamp : String)
    (xmlResult : Except String (List (String × XVal))) :
    Option (Except String ParsedBusData) :=
  match xmlResult with
  | Except.error e => some (Except.error ("failed to parse XML: " ++ e))
  | Except.ok xmlMap =>
    (extractVehicleActivities xmlMap).map fun vehicles =>
      Except.ok { LineRef := lineRef, Timestamp := timestamp
                  VehicleData := vehicles, RawData := xmlMap }

example : parseInt " 42 " = some 42 := by decide
example : parseInt "abc" = none := by decide
example : parseFloat "abc" = none := by decide
example : parseFloat "" = none := by decide

/-- `pipeline.Config` (pipeline.go lines 28-37).  `Interval` is the tick
period in nanoseconds (Go `time.Duration`). -/
structure Config where
  DryRun : Bool := false
  APIKey : String := ""
  DatasetID : String := ""
  LineRefs : List String := []
  LokiURL : String := ""
  LokiUser : String := ""
  LokiPassword : String := ""
  Interval : Int := 0

/-- `pipeline.New` (pipeline.go lines 39-61): construction fails on a
missing API key or an empty line list; the returned pipeline carries the
validated configuration. -/
def New (config : Config) : Except String Config :=
  if config.APIKey = "" then Except.error "API key is required"
  else if config.LineRefs = [] then Except.error "at least one line reference is required"
  else Except.ok config

/-- One per-line goroutine result of `processOnce` (the `lineResult` sent on
the channel, pipeline.go lines 100-137): a fetch failure, a parse failure,
or a parsed batch.  A cycle's collected results are a list with exactly one
entry per configured line; the channel delivers them in completion order,
so every permutation is one possible list — the theorems quantify over all
lists. -/
inductive LineOutcome where
  | fetchFailed (msg : String)
  | parseFailed (msg : String)
  | parsed (data : ParsedBusData)

/-- Whether a collected result joins the `errors` slice (pipeline.go
lines 145-154). -/
def LineOutcome.isFailure : LineOutcome → Bool
  | fetchFailed _ => true
  | parseFailed _ => true
  | parsed _ => false

/-- `len(errors)` after collecting one cycle's results. -/
def countFailures (outcomes : List LineOutcome) : Nat :=
  (outcomes.filter LineOutcome.isFailure).length

/-- What one `processOnce` call leaves behind: the dispatch errors it merely
logged (`log.Printf`, lines 166-172) and its own error return. -/
structure CycleReport where
  dispatchErrors : List String
  cycleError : Option String

/-- `processOnce` (pipeline.go lines 87-182) after result collection: the
successes are dispatched one by one — `handleDryRun` or `sendToLoki`,
abstracted as the `dispatch` argument — with a failed dispatch only
logged; the call returns an error exactly when `len(errors) ==
len(p.config.LineRefs)`, and the collected `outcomes` list has one entry
per configured line. -/
def processOnce (outcomes : List LineOutcome)
    (dispatch : ParsedBusData → Except String Unit) : CycleReport :=
  let allData := outcomes.filterMap fun o =>
    match o with
    | LineOutcome.parsed data => some data
    | _ => none
  { dispatchErrors := allData.filterMap fun data =>
      match dispatch data with
      | Except.error e => some e
      | Except.ok _ => none
    cycleError :=
      if countFailures outcomes = outcomes.length then some "all lines failed" else none }

/-- A serialized JSON value, for the per-vehicle log entries. -/
inductive JVal where
  | s : String → JVal
  | n : Rat → JVal
  | obj : List (String × JVal) → JVal
  | arr : List JVal → JVal

/-- An `omitempty` string field: present only when non-empty. -/
def omitemptyStr (k s : String) : List (String × JVal) :=
  if s = "" then [] else [(k, JVal.s s)]

/-- An `omitempty` numeric field: present only when non-zero. -/
def omitemptyNum (k : String) (x : Rat) : List (String × JVal) :=
  if x = 0 then [] else [(k, JVal.n x)]

/-- The key/value pairs `encoding/json` emits for a `types.StopCall`
(bus_data.go lines 41-49): `stop_point_ref` always, everything else
`omitempty`. -/
def stopCallFields (c : StopCall) : List (String × JVal) :=
  [("stop_point_ref", JVal.s c.StopPointRef)]
  ++ omitemptyStr "stop_point_name" c.StopPointName
  ++ omitemptyStr "aimed_arrival_time" c.AimedArrivalTime
  ++ omitemptyStr "expected_arrival_time" c.ExpectedArrivalTime
  ++ omitemptyStr "aimed_departure_time" c.AimedDepartureTime
  ++ omitemptyStr "expected_departure_time" c.ExpectedDepartureTime
  ++ (if c.VisitNumber = 0 then [] else [("visit_number", JVal.n c.VisitNumber)])

/-- The key/value pairs `encoding/json` emits for the push path's
`vehicleLogEntry` (loki/client.go lines 67-71, one per vehicle inside
`SendBusData`): the wrapper's `timestamp` and `line_ref`, then the
embedded `types.VehicleActivity` fields in declaration order.  The
embedded struct's own `line_ref` tag is shadowed by the shallower wrapper
field, so the vehicle's `LineRef` value is not serialized.  Fields tagged
`omitempty` (bus_data.go lines 28-37) appear only at a non-zero value. -/
def vehicleLogEntryFields (timestamp lineRef : String) (v : VehicleActivity) :
    List (String × JVal) :=
  [("timestamp", JVal.s timestamp),
   ("line_ref", JVal.s lineRef),
   ("vehicle_ref", JVal.s v.VehicleRef),
   ("direction_ref", JVal.s v.DirectionRef),
   ("operator_ref", JVal.s v.OperatorRef),
   ("origin_ref", JVal.s v.OriginRef),
   ("origin_name", JVal.s v.OriginName),
   ("destination_ref", JVal.s v.DestinationRef),
   ("destination_name", JVal.s v.DestinationName),
   ("origin_aimed_departure_time", JVal.s v.OriginAimedDepartureTime),
   ("destination_aimed_arrival_time", JVal.s v.DestinationAimedArrivalTime),
   ("longitude", JVal.n v.Longitude),
   ("latitude", JVal.n v.Latitude),
   ("recorded_at_time", JVal.s v.RecordedAtTime),
   ("valid_until_time", JVal.s v.ValidUntilTime),
   ("bus_image", JVal.s v.BusImage)]
  ++ omitemptyNum "bearing" v.Bearing
  ++ omitemptyNum "velocity" v.Velocity
  ++ omitemptyStr "occupancy" v.Occupancy
  ++ omitemptyStr "progress_status" v.ProgressStatus
  ++ omitemptyStr "published_line_name" v.PublishedLineName
  ++ omitemptyStr "block_ref" v.BlockRef
  ++ (match v.MonitoredCall with
      | none => []
      | some c => [("monitored_call", JVal.obj (stopCallFields c))])
  ++ (match v.OnwardCalls with
      | [] => []
      | cs => [("onward_calls", JVal.arr (cs.map (fun c => JVal.obj (stopCallFields c))))])

/-- The key/value pairs of the `vehicleLog` map `handleDryRun` marshals for
each vehicle (pipeline.go lines 211-228), in the map literal's order
(`json.Marshal` sorts a map's keys in the byte stream; the properties here
are about which keys occur).  Every key is unconditionally present. -/
def dryRunLogEntryFields (timestamp lineRef : String) (v : VehicleActivity) :
    List (String × JVal) :=
  [("timestamp", JVal.s timestamp),
   ("line_ref", JVal.s lineRef),
   ("vehicle_ref", JVal.s v.VehicleRef),
   ("direction_ref", JVal.s v.DirectionRef),
   ("operator_ref", JVal.s v.OperatorRef),
   ("origin_ref", JVal.s v.OriginRef),
   ("origin_name", JVal.s v.OriginName),
   ("destination_ref", JVal.s v.DestinationRef),
   ("destination_name", JVal.s v.DestinationName),
   ("origin_aimed_departure_time", JVal.s v.OriginAimedDepartureTime),
   ("destination_aimed_arrival_time", JVal.s v.DestinationAimedArrivalTime),
   ("longitude", JVal.n v.Longitude),
   ("latitude", JVal.n v.Latitude),
   ("recorded_at_time", JVal.s v.RecordedAtTime),
   ("valid_until_time", JVal.s v.ValidUntilTime),
   ("bus_image", JVal.s v.BusImage)]

/-- The keys of a serialized object. -/
def keysOf (fields : List (String × JVal)) : List String :=
  fields.map Prod.fst

/-- The sixteen keys both per-vehicle entries always carry. -/
def baseEntryKeys : List String :=
  ["timestamp", "line_ref", "vehicle_ref", "direction_ref", "operator_ref",
   "origin_ref", "origin_name", "destination_ref", "destination_name",
   "origin_aimed_departure_time", "destination_aimed_arrival_time",
   "longitude", "latitude", "recorded_at_time", "valid_until_time", "bus_image"]

/-- The extended keys only the push path can emit. -/
def extendedEntryKeys : List String :=
  ["bearing", "velocity", "occupancy", "progress_status",
   "published_line_name", "block_ref", "monitored_call", "onward_calls"]

lemma keysOf_append (a b : List (String × JVal)) :
    keysOf (a ++ b) = keysOf a ++ keysOf b := by
  simp [keysOf]

lemma keysOf_omitemptyStr (k s : String) :
    keysOf (omitemptyStr k s) = if s = "" then [] else [k] := by
  unfold omitemptyStr; split <;> simp [keysOf]

lemma keysOf_omitemptyNum (k : String) (x : Rat) :
    keysOf (omitemptyNum k x) = if x = 0 then [] else [k] := by
  unfold omitemptyNum; split <;> simp [keysOf]

/-- The push entry's key list: the sixteen unconditional keys followed by
one key per populated `omitempty` field. -/
lemma keysOf_vehicleLogEntryFields (ts lr : String) (v : VehicleActivity) :
    keysOf (vehicleLogEntryFields ts lr v) =
      baseEntryKeys
      ++ (if v.Bearing = 0 then [] else ["bearing"])
      ++ (if v.Velocity = 0 then [] else ["velocity"])
      ++ (if v.Occupancy = "" then [] else ["occupancy"])
      ++ (if v.ProgressStatus = "" then [] else ["progress_status"])
      ++ (if v.PublishedLineName = "" then [] else ["published_line_name"])
      ++ (if v.BlockRef = "" then [] else ["block_ref"])
      ++ (match v.MonitoredCall with | none => [] | some _ => ["monitored_call"])
      ++ (match v.OnwardCalls with | [] => [] | _ :: _ => ["onward_calls"]) := by
  unfold vehicleLogEntryFields baseEntryKeys
  rw [keysOf_append, keysOf_append, keysOf_append, keysOf_append, keysOf_append,
    keysOf_append, keysOf_append, keysOf_append]
  rw [keysOf_omitemptyNum, keysOf_omitemptyNum, keysOf_omitemptyStr, keysOf_omitemptyStr,
    keysOf_omitemptyStr, keysOf_omitemptyStr]
  rcases v.MonitoredCall with _ | c <;> rcases h : v.OnwardCalls with _ | ⟨c2, cs⟩ <;>
    simp [keysOf]

/-- The dry-run entry's key list is the same sixteen keys, whatever the
record holds. -/
lemma keysOf_dryRunLogEntryFields (ts lr : String) (v : VehicleActivity) :
    keysOf (dryRunLogEntryFields ts lr v) = baseEntryKeys := by
  rfl

lemma mem_ite_nil_singleton {α : Type} (c : Prop) [Decidable c] (a b : α) :
    a ∈ (if c then ([] : List α) else [b]) ↔ ¬c ∧ a = b := by
  split <;> simp_all

lemma push_mem_bearing (ts lr : String) (v : VehicleActivity) :
    "bearing" ∈ keysOf (vehicleLogEntryFields ts lr v) ↔ v.Bearing ≠ 0 := by
  rw [keysOf_vehicleLogEntryFields]
  rcases v.MonitoredCall with _ | c <;> rcases v.OnwardCalls with _ | ⟨c2, cs⟩ <;>
    simp [baseEntryKeys, mem_ite_nil_singleton]

lemma push_mem_velocity (ts lr : String) (v : VehicleActivity) :
    "velocity" ∈ keysOf (vehicleLogEntryFields ts lr v) ↔ v.Velocity ≠ 0 := by
  rw [keysOf_vehicleLogEntryFields]
  rcases v.MonitoredCall with _ | c <;> rcases v.OnwardCalls with _ | ⟨c2, cs⟩ <;>
    simp [baseEntryKeys, mem_ite_nil_singleton]

lemma push_mem_occupancy (ts lr : String) (v : VehicleActivity) :
    "occupancy" ∈ keysOf (vehicleLogEntryFields ts lr v) ↔ v.Occupancy ≠ "" := by
  rw [keysOf_vehicleLogEntryFields]
  rcases v.MonitoredCall with _ | c <;> rcases v.OnwardCalls with _ | ⟨c2, cs⟩ <;>
    simp [baseEntryKeys, mem_ite_nil_singleton]

lemma push_mem_progress_status (ts lr : String) (v : VehicleActivity) :
    "progress_status" ∈ keysOf (vehicleLogEntryFields ts lr v) ↔ v.ProgressStatus ≠ "" := by
  rw [keysOf_vehicleLogEntryFields]
  rcases v.MonitoredCall with _ | c <;> rcases v.OnwardCalls with _ | ⟨c2, cs⟩ <;>
    simp [baseEntryKeys, mem_ite_nil_singleton]

lemma push_mem_published_line_name (ts lr : String) (v : VehicleActivity) :
    "published_line_name" ∈ keysOf (vehicleLogEntryFields ts lr v) ↔
      v.PublishedLineName ≠ "" := by
  rw [keysOf_vehicleLogEntryFields]
  rcases v.MonitoredCall with _ | c <;> rcases v.OnwardCalls with _ | ⟨c2, cs⟩ <;>
    simp [baseEntryKeys, mem_ite_nil_singleton]

lemma push_mem_block_ref (ts lr : String) (v : VehicleActivity) :
    "block_ref" ∈ keysOf (vehicleLogEntryFields ts lr v) ↔ v.BlockRef ≠ "" := by
  rw [keysOf_vehicleLogEntryFields]
  rcases v.MonitoredCall with _ | c <;> rcases v.OnwardCalls with _ | ⟨c2, cs⟩ <;>
    simp [baseEntryKeys, mem_ite_nil_singleton]

lemma push_mem_monitored_call (ts lr : String) (v : VehicleActivity) :
    "monitored_call" ∈ keysOf (vehicleLogEntryFields ts lr v) ↔ v.MonitoredCall ≠ none := by
  rw [keysOf_vehicleLogEntryFields]
  rcases v.MonitoredCall with _ | c <;> rcases v.OnwardCalls with _ | ⟨c2, cs⟩ <;>
    simp [baseEntryKeys, mem_ite_nil_singleton]

lemma push_mem_onward_calls (ts lr : String) (v : VehicleActivity) :
    "onward_calls" ∈ keysOf (vehicleLogEntryFields ts lr v) ↔ v.OnwardCalls ≠ [] := by
  rw [keysOf_vehicleLogEntryFields]
  rcases v.MonitoredCall with _ | c <;> rcases v.OnwardCalls with _ | ⟨c2, cs⟩ <;>
    simp [baseEntryKeys, mem_ite_nil_singleton]

lemma base_mem_push (ts lr : String) (v : VehicleActivity) (k : String)
    (hk : k ∈ baseEntryKeys) : k ∈ keysOf (vehicleLogEntryFields ts lr v) := by
  rw [keysOf_vehicleLogEntryFields]
  exact List.mem_append_left _ (List.mem_append_left _ (List.mem_append_left _
    (List.mem_append_left _ (List.mem_append_left _ (List.mem_append_left _
      (List.mem_append_left _ (List.mem_append_left _ hk)))))))

lemma goReplaceAux_ne_nil (pat rep : List Char) (hrep : rep ≠ []) :
    ∀ (fuel : Nat) (s : List Char), s ≠ [] → goReplaceAux pat rep fuel s ≠ [] := by
  intro fuel s hs
  match fuel, s with
  | _, [] => exact absurd rfl hs
  | 0, c :: rest => simp [goReplaceAux]
  | fuel + 1, c :: rest =>
    rw [goReplaceAux]
    split
    · exact fun hcontra => hrep (List.append_eq_nil.mp hcontra).1
    · simp

lemma data_ne_nil_of_ne_empty (s : String) (hs : s ≠ "") : s.data ≠ [] := by
  intro h
  apply hs
  cases s with
  | mk d => rw [show d = [] from h]

lemma stringsReplaceAll_ne_empty (s old new : String) (hs : s ≠ "") (hold : old ≠ "")
    (hnew : new ≠ "") : stringsReplaceAll s old new ≠ "" := by
  unfold stringsReplaceAll
  rw [if_neg hold]
  intro hcontra
  exact goReplaceAux_ne_nil old.data new.data (data_ne_nil_of_ne_empty new hnew)
    s.data.length s.data (data_ne_nil_of_ne_empty s hs) (congrArg String.data hcontra)

/-- The formatter maps only the empty name to the empty name: both
replacement texts are non-empty. -/
lemma formatStopName_eq_empty_iff (s : String) : formatStopName s = "" ↔ s = "" := by
  constructor
  · intro h
    by_contra hs
    unfold formatStopName at h
    rw [if_neg hs] at h
    exact stringsReplaceAll_ne_empty _ _ _
      (stringsReplaceAll_ne_empty s "__" " - " hs (by decide) (by decide))
      (by decide) (by decide) h
  · intro h
    rw [h]
    rfl

lemma countFailures_map_parsed (batches : List ParsedBusData) :
    countFailures (batches.map LineOutcome.parsed) = 0 := by
  induction batches with
  | nil => rfl
  | cons b bs ih => simp [countFailures, LineOutcome.isFailure]

/-- C3: the stop-name formatter first replaces every `"__"` with `" - "`,
then every remaining `"_"` with `" "`, maps `""` to `""`, and on the
worked examples gives `"Lyde Green - Science Park"` and `"A - B - C"`. -/
theorem formatStopName_double_then_single_underscore :
    (∀ s : String,
      formatStopName s = stringsReplaceAll (stringsReplaceAll s "__" " - ") "_" " ") ∧
    formatStopName "" = "" ∧
    formatStopName "Lyde_Green__Science_Park" = "Lyde Green - Science Park" ∧
    formatStopName "A__B__C" = "A - B - C" := by
  refine ⟨fun s => ?_, rfl, by decide, by decide⟩
  by_cases h : s = ""
  · rw [h]; rfl
  · rw [formatStopName, if_neg h]

/-- The two graceful halves of the parser's failure semantics, supporting
the analysis of the fatality claim: a failed top-level XML parse yields an
error and no batch, while a missing `Siri`, `ServiceDelivery` or
`VehicleMonitoringDelivery` node in a well-formed document yields a batch
with an empty vehicle list and no error.  These halves hold; the
exclusivity part of the claim — that nothing else is fatal — does not,
because of the panic evidenced further below. -/
theorem parse_error_fatal_missing_nodes_graceful :
    (∀ lineRef ts e, ParseBusData lineRef ts (Except.error e) =
        some (Except.error ("failed to parse XML: " ++ e))) ∧
    (∀ lineRef ts m, navigateToVMD m = none →
        ParseBusData lineRef ts (Except.ok m) =
          some (Except.ok { LineRef := lineRef, Timestamp := ts,
                            VehicleData := [], RawData := m })) ∧
    (∀ m, objField m "Siri" = none → navigateToVMD m = none) ∧
    (∀ m siri, objField m "Siri" = some siri →
        objField siri "ServiceDelivery" = none → navigateToVMD m = none) ∧
    (∀ m siri sd, objField m "Siri" = some siri →
        objField siri "ServiceDelivery" = some sd →
        objField sd "VehicleMonitoringDelivery" = none → navigateToVMD m = none) := by
  refine ⟨fun _ _ _ => rfl, ?_, ?_, ?_, ?_⟩
  · intro lineRef ts m h
    simp [ParseBusData, extractVehicleActivities, h]
  · intro m h
    simp [navigateToVMD, h]
  · intro m siri h1 h2
    simp [navigateToVMD, h1, h2]
  · intro m siri sd h1 h2 h3
    simp [navigateToVMD, h1, h2, h3]

/-- The graceful halves instantiated at concrete inputs: a malformed
document, and a well-formed document missing its
`VehicleMonitoringDelivery` node. -/
theorem parse_error_fatal_missing_nodes_graceful_witness :
    ParseBusData "m1" "2025-05-05T10:00:00.000Z" (Except.error "syntax error") =
      some (Except.error "failed to parse XML: syntax error") ∧
    ParseBusData "m1" "2025-05-05T10:00:00.000Z"
        (Except.ok [("Siri", XVal.obj [("ServiceDelivery", XVal.obj [])])]) =
      some (Except.ok { LineRef := "m1", Timestamp := "2025-05-05T10:00:00.000Z",
                        VehicleData := [],
                        RawData := [("Siri", XVal.obj [("ServiceDelivery", XVal.obj [])])] }) :=
  ⟨parse_error_fatal_missing_nodes_graceful.1 "m1" "2025-05-05T10:00:00.000Z" "syntax error",
   parse_error_fatal_missing_nodes_graceful.2.1 "m1" "2025-05-05T10:00:00.000Z"
     [("Siri", XVal.obj [("ServiceDelivery", XVal.obj [])])]
     (parse_error_fatal_missing_nodes_graceful.2.2.2.2
       [("Siri", XVal.obj [("ServiceDelivery", XVal.obj [])])]
       [("ServiceDelivery", XVal.obj [])] [] rfl rfl rfl)⟩

/-- C5: at the vehicle-activity position and at the onward-call position, a
lone object is processed exactly like a one-element list holding that same
object. -/
theorem lone_object_equals_singleton_list :
    (∀ (vmd vmd' o : List (String × XVal)),
      lookupX vmd "VehicleActivity" = some (XVal.obj o) →
      lookupX vmd' "VehicleActivity" = some (XVal.arr [XVal.obj o]) →
      extractFromVMD vmd = extractFromVMD vmd') ∧
    (∀ (ocd ocd' o : List (String × XVal)),
      lookupX ocd "OnwardCall" = some (XVal.obj o) →
      lookupX ocd' "OnwardCall" = some (XVal.arr [XVal.obj o]) →
      parseOnwardCalls ocd = parseOnwardCalls ocd') := by
  constructor
  · intro vmd vmd' o h h'
    simp [extractFromVMD, h, h']
  · intro ocd ocd' o h h'
    simp [parseOnwardCalls, h, h']
    cases hpc : parseStopCall o <;> simp [hpc]

/-- Witness for C5 at concrete inputs: a lone empty vehicle activity, and a
lone onward call naming stop `s1`. -/
theorem lone_object_equals_singleton_list_witness :
    extractFromVMD [("VehicleActivity", XVal.obj [])] =
      extractFromVMD [("VehicleActivity", XVal.arr [XVal.obj []])] ∧
    parseOnwardCalls [("OnwardCall", XVal.obj [("StopPointRef", XVal.str "s1")])] =
      parseOnwardCalls [("OnwardCall", XVal.arr [XVal.obj [("StopPointRef", XVal.str "s1")]])] :=
  ⟨lone_object_equals_singleton_list.1 _ _ [] rfl rfl,
   lone_object_equals_singleton_list.2 _ _ [("StopPointRef", XVal.str "s1")] rfl rfl⟩

/-- The discard guard at the end of `parseStopCall`: whatever record the
field extraction built, an emitted call has a non-empty ref or name. -/
lemma discard_guard (r call : StopCall)
    (h : (if r.StopPointRef = "" ∧ r.StopPointName = "" then none else some r) = some call) :
    call.StopPointRef ≠ "" ∨ call.StopPointName ≠ "" := by
  split at h
  · simp at h
  · next hcond =>
    rw [Option.some_inj] at h
    subst h
    exact not_and_or.mp hcond

/-- C6: a stop call whose extracted `StopPointRef` and `StopPointName` are
both absent-or-empty parses to no call at all, and every emitted `StopCall`
carries a non-empty ref or a non-empty name. -/
theorem stop_call_discard_rule :
    (∀ callData call, parseStopCall callData = some call →
      call.StopPointRef ≠ "" ∨ call.StopPointName ≠ "") ∧
    (∀ callData, strFieldD callData "StopPointRef" = "" →
      strFieldD callData "StopPointName" = "" →
      parseStopCall callData = none) := by
  constructor
  · intro callData call h
    exact discard_guard _ call h
  · intro callData href hname
    unfold parseStopCall
    rw [if_pos]
    refine ⟨href, ?_⟩
    cases hn : strField callData "StopPointName" with
    | none => rfl
    | some s =>
      have : s = "" := by
        rw [strFieldD, hn] at hname
        exact hname
      rw [this]
      rfl

/-- Witness for C6 at concrete inputs: a call with only timetable fields is
discarded; a call with a stop ref is emitted with that non-empty ref. -/
theorem stop_call_discard_rule_witness :
    parseStopCall [("AimedArrivalTime", XVal.str "07:00")] = none ∧
    (({ StopPointRef := "s1" } : StopCall).StopPointRef ≠ "" ∨
      ({ StopPointRef := "s1" } : StopCall).StopPointName ≠ "") :=
  ⟨stop_call_discard_rule.2 [("AimedArrivalTime", XVal.str "07:00")] rfl rfl,
   stop_call_discard_rule.1 [("StopPointRef", XVal.str "s1")] { StopPointRef := "s1" }
     (by decide)⟩

/-- A vehicle activity with no `VehicleRef` but a framed-journey identifier
`journey7`, used to witness the fallback rule. -/
def fallbackDemoActivity : List (String × XVal) :=
  [("MonitoredVehicleJourney", XVal.obj
     [("DirectionRef", XVal.str "outbound"),
      ("FramedVehicleJourneyRef", XVal.obj
        [("DatedVehicleJourneyRef", XVal.str "journey7")])])]

/-- A vehicle activity carrying its own `VehicleRef` `bus42`, used to
witness that a present identifier is kept. -/
def keptDemoActivity : List (String × XVal) :=
  [("MonitoredVehicleJourney", XVal.obj
     [("VehicleRef", XVal.str "bus42"),
      ("DirectionRef", XVal.str "inbound")])]

/-- C7: when the primary `VehicleRef` is absent or empty and a
`FramedVehicleJourneyRef`/`DatedVehicleJourneyRef` is present, the record's
vehicle identifier is that fallback value; a present non-empty primary
identifier is kept unchanged. -/
theorem vehicle_ref_fallback :
    (∀ (activity mvj fvjr : List (String × XVal)) (fall : String) (v : VehicleActivity),
      objField activity "MonitoredVehicleJourney" = some mvj →
      strFieldD mvj "VehicleRef" = "" →
      objField mvj "FramedVehicleJourneyRef" = some fvjr →
      strField fvjr "DatedVehicleJourneyRef" = some fall →
      parseVehicleActivity activity = some v →
      v.VehicleRef = fall) ∧
    (∀ (activity mvj : List (String × XVal)) (r : String) (v : VehicleActivity),
      objField activity "MonitoredVehicleJourney" = some mvj →
      strField mvj "VehicleRef" = some r →
      r ≠ "" →
      parseVehicleActivity activity = some v →
      v.VehicleRef = r) := by
  constructor
  · intro activity mvj fvjr fall v h1 h2 h3 h4 hv
    simp only [parseVehicleActivity, h1, h2, h3, h4] at hv
    cases himg : GenerateCompactBusImage (strFieldD mvj "LineRef") (strFieldD mvj "DirectionRef") with
    | none => rw [himg] at hv; cases hv
    | some img =>
      rw [himg] at hv
      rw [Option.some_inj] at hv
      subst hv
      simp
  · intro activity mvj r v h1 h2 hr hv
    have h2' : strFieldD mvj "VehicleRef" = r := by rw [strFieldD, h2]; rfl
    simp only [parseVehicleActivity, h1, h2'] at hv
    cases himg : GenerateCompactBusImage (strFieldD mvj "LineRef") (strFieldD mvj "DirectionRef") with
    | none => rw [himg] at hv; cases hv
    | some img =>
      rw [himg] at hv
      rw [Option.some_inj] at hv
      subst hv
      cases hf : objField mvj "FramedVehicleJourneyRef" with
      | none => simp [hf]
      | some fvjr =>
        cases hd : strField fvjr "DatedVehicleJourneyRef" with
        | none => simp [hf, hd]
        | some dref => simp [hf, hd, if_neg hr]

/-- Witness for C7 at the two demo activities. -/
theorem vehicle_ref_fallback_witness :
    ({ VehicleRef := "journey7", DirectionRef := "outbound",
       BusImage := "data:image/svg+xml;base64,<svg:|outbound>" } : VehicleActivity).VehicleRef
      = "journey7" ∧
    ({ VehicleRef := "bus42", DirectionRef := "inbound",
       BusImage := "data:image/svg+xml;base64,<svg:|inbound>" } : VehicleActivity).VehicleRef
      = "bus42" :=
  ⟨vehicle_ref_fallback.1 fallbackDemoActivity
     [("DirectionRef", XVal.str "outbound"),
      ("FramedVehicleJourneyRef", XVal.obj [("DatedVehicleJourneyRef", XVal.str "journey7")])]
     [("DatedVehicleJourneyRef", XVal.str "journey7")] "journey7" _ rfl rfl rfl rfl (by decide),
   vehicle_ref_fallback.2 keptDemoActivity
     [("VehicleRef", XVal.str "bus42"), ("DirectionRef", XVal.str "inbound")]
     "bus42" _ rfl rfl (by decide) (by decide)⟩

/-- A well-formed document whose single vehicle activity has a
`MonitoredVehicleJourney` with no `DirectionRef`. -/
def shortDirectionDoc : List (String × XVal) :=
  [("Siri", XVal.obj
     [("ServiceDelivery", XVal.obj
       [("VehicleMonitoringDelivery", XVal.obj
         [("VehicleActivity", XVal.obj
           [("MonitoredVehicleJourney", XVal.obj [])])])])])]

/-- C10 (evidence of the divergence): on an object-shaped vehicle-activity
item whose `MonitoredVehicleJourney` is present but whose `DirectionRef` is
absent, `parseVehicleActivity` does not yield a record — the Go code
panics in `GenerateCompactBusImage` at `strings.ToUpper(direction[:2])` —
and the panic propagates through the extraction loop and `ParseBusData`,
so no batch (and no error return) is produced either. -/
theorem parseVehicleActivity_panics_on_short_direction :
    parseVehicleActivity [("MonitoredVehicleJourney", XVal.obj [])] = none ∧
    extractFromVMD [("VehicleActivity",
        XVal.obj [("MonitoredVehicleJourney", XVal.obj [])])] = none ∧
    ParseBusData "m1" "2025-05-05T10:00:00.000Z" (Except.ok shortDirectionDoc) = none := by
  refine ⟨rfl, rfl, rfl⟩

/-- C2: `New` only constructs a pipeline with a non-empty line list, and a
cycle's error return is `some _` exactly when every collected line result
failed fetch or parse; in particular any cycle with fewer failures than
lines returns no error. -/
theorem cycle_error_iff_all_lines_failed :
    (∀ cfg cfg', New cfg = Except.ok cfg' → cfg'.LineRefs ≠ []) ∧
    (∀ (outcomes : List LineOutcome) (dispatch : ParsedBusData → Except String Unit),
      (processOnce outcomes dispatch).cycleError ≠ none ↔
        countFailures outcomes = outcomes.length) ∧
    (∀ (outcomes : List LineOutcome) (dispatch : ParsedBusData → Except String Unit),
      countFailures outcomes < outcomes.length →
      (processOnce outcomes dispatch).cycleError = none) := by
  refine ⟨?_, ?_, ?_⟩
  · intro cfg cfg' h
    unfold New at h
    split at h
    · cases h
    · split at h
      · cases h
      · next hne =>
        rw [Except.ok.injEq] at h
        subst h
        exact hne
  · intro outcomes dispatch
    simp only [processOnce]
    split <;> simp_all
  · intro outcomes dispatch h
    simp only [processOnce]
    rw [if_neg (Nat.ne_of_lt h)]

/-- Witness for C2: a one-line config passes validation; a cycle whose only
line failed returns an error; a cycle with one failure out of two does not. -/
theorem cycle_error_iff_all_lines_failed_witness :
    ({ APIKey := "k", LineRefs := ["m1"] } : Config).LineRefs ≠ [] ∧
    (processOnce [LineOutcome.fetchFailed "boom"] (fun _ => Except.ok ())).cycleError ≠ none ∧
    (processOnce [LineOutcome.parsed {}, LineOutcome.fetchFailed "boom"]
      (fun _ => Except.ok ())).cycleError = none :=
  ⟨cycle_error_iff_all_lines_failed.1 { APIKey := "k", LineRefs := ["m1"] } _ rfl,
   (cycle_error_iff_all_lines_failed.2.1 [LineOutcome.fetchFailed "boom"]
     (fun _ => Except.ok ())).mpr rfl,
   cycle_error_iff_all_lines_failed.2.2 [LineOutcome.parsed {}, LineOutcome.fetchFailed "boom"]
     (fun _ => Except.ok ()) (by decide)⟩

/-- C8: the cycle's error return is computed from the fetch/parse outcomes
alone — it is identical under any two dispatch functions — and a cycle in
which every line parsed returns no error even when every dispatch
(dry-run print or push) fails. -/
theorem dispatch_failure_never_changes_cycle_error :
    (∀ (outcomes : List LineOutcome) (d d' : ParsedBusData → Except String Unit),
      (processOnce outcomes d).cycleError = (processOnce outcomes d').cycleError) ∧
    (∀ (batches : List ParsedBusData), batches ≠ [] →
      (processOnce (batches.map LineOutcome.parsed)
        (fun _ => Except.error "push failed")).cycleError = none) := by
  constructor
  · intro outcomes d d'
    rfl
  · intro batches hne
    simp only [processOnce, countFailures_map_parsed]
    rw [if_neg]
    intro hlen
    rw [List.length_map] at hlen
    exact hne (List.eq_nil_of_length_eq_zero hlen.symm)

/-- Witness for C8: one successfully parsed batch whose push fails still
yields a cycle without an error return. -/
theorem dispatch_failure_never_changes_cycle_error_witness :
    (processOnce [LineOutcome.parsed {}] (fun _ => Except.ok ())).cycleError =
      (processOnce [LineOutcome.parsed {}] (fun _ => Except.error "x")).cycleError ∧
    (processOnce [LineOutcome.parsed {}] (fun _ => Except.error "push failed")).cycleError
      = none :=
  ⟨dispatch_failure_never_changes_cycle_error.1 [LineOutcome.parsed {}] _ _,
   dispatch_failure_never_changes_cycle_error.2 [({} : ParsedBusData)] (by simp)⟩

/-- C1 refuted at a concrete record: the push path's per-vehicle entry for a
record whose optional `operator_ref` was never populated still contains the
`operator_ref` key (the field has no `omitempty` tag), so unpopulated
optional fields other than the tagged extended ones are not omitted. -/
theorem omission_contract_counterexample :
    ({} : VehicleActivity).OperatorRef = "" ∧
    "operator_ref" ∈ keysOf (vehicleLogEntryFields "2025-05-05T10:00:00.000Z" "m1" {}) :=
  ⟨rfl, by decide⟩

/-- C1 as amended: the push entry always carries the sixteen untagged keys
(timestamp, line_ref, vehicle_ref, direction_ref, operator_ref, origin_ref,
origin_name, destination_ref, destination_name,
origin_aimed_departure_time, destination_aimed_arrival_time, longitude,
latitude, recorded_at_time, valid_until_time, bus_image) even when empty,
and carries each `omitempty`-tagged extended key exactly when that field is
populated (non-zero). -/
theorem push_entry_key_contract :
    (∀ ts lr (v : VehicleActivity), ∀ k ∈ baseEntryKeys,
      k ∈ keysOf (vehicleLogEntryFields ts lr v)) ∧
    (∀ ts lr (v : VehicleActivity),
      ("bearing" ∈ keysOf (vehicleLogEntryFields ts lr v) ↔ v.Bearing ≠ 0) ∧
      ("velocity" ∈ keysOf (vehicleLogEntryFields ts lr v) ↔ v.Velocity ≠ 0) ∧
      ("occupancy" ∈ keysOf (vehicleLogEntryFields ts lr v) ↔ v.Occupancy ≠ "") ∧
      ("progress_status" ∈ keysOf (vehicleLogEntryFields ts lr v) ↔ v.ProgressStatus ≠ "") ∧
      ("published_line_name" ∈ keysOf (vehicleLogEntryFields ts lr v) ↔
        v.PublishedLineName ≠ "") ∧
      ("block_ref" ∈ keysOf (vehicleLogEntryFields ts lr v) ↔ v.BlockRef ≠ "") ∧
      ("monitored_call" ∈ keysOf (vehicleLogEntryFields ts lr v) ↔ v.MonitoredCall ≠ none) ∧
      ("onward_calls" ∈ keysOf (vehicleLogEntryFields ts lr v) ↔ v.OnwardCalls ≠ [])) := by
  refine ⟨fun ts lr v k hk => base_mem_push ts lr v k hk, fun ts lr v => ?_⟩
  exact ⟨push_mem_bearing ts lr v, push_mem_velocity ts lr v, push_mem_occupancy ts lr v,
    push_mem_progress_status ts lr v, push_mem_published_line_name ts lr v,
    push_mem_block_ref ts lr v, push_mem_monitored_call ts lr v,
    push_mem_onward_calls ts lr v⟩

/-- Witness for the amended C1: an always-present key on the empty record,
and the `bearing` key appearing once `Bearing` is populated. -/
theorem push_entry_key_contract_witness :
    "operator_ref" ∈ keysOf (vehicleLogEntryFields "t0" "m1" {}) ∧
    "bearing" ∈ keysOf (vehicleLogEntryFields "t0" "m1" { Bearing := 5 }) :=
  ⟨push_entry_key_contract.1 "t0" "m1" {} "operator_ref" (by decide),
   (push_entry_key_contract.2 "t0" "m1" { Bearing := 5 }).1.mpr (by decide)⟩

/-- C9: the dry-run entry serializes exactly the sixteen fixed keys for
every record, never any of the extended keys, and therefore differs from
the push-path entry whenever any extended field is populated. -/
theorem dry_run_sixteen_fixed_keys :
    (∀ ts lr (v : VehicleActivity), keysOf (dryRunLogEntryFields ts lr v) = baseEntryKeys) ∧
    (∀ ts lr (v : VehicleActivity), ∀ k ∈ extendedEntryKeys,
      k ∉ keysOf (dryRunLogEntryFields ts lr v)) ∧
    (∀ ts lr (v : VehicleActivity),
      (v.Bearing ≠ 0 ∨ v.Velocity ≠ 0 ∨ v.Occupancy ≠ "" ∨ v.ProgressStatus ≠ "" ∨
       v.PublishedLineName ≠ "" ∨ v.BlockRef ≠ "" ∨ v.MonitoredCall ≠ none ∨
       v.OnwardCalls ≠ []) →
      vehicleLogEntryFields ts lr v ≠ dryRunLogEntryFields ts lr v) := by
  refine ⟨fun ts lr v => keysOf_dryRunLogEntryFields ts lr v, ?_, ?_⟩
  · intro ts lr v k hk
    rw [keysOf_dryRunLogEntryFields]
    fin_cases hk <;> decide
  · intro ts lr v h heq
    have hkeys : keysOf (vehicleLogEntryFields ts lr v) = baseEntryKeys := by
      rw [heq, keysOf_dryRunLogEntryFields]
    rcases h with h | h | h | h | h | h | h | h
    · exact absurd (hkeys ▸ (push_mem_bearing ts lr v).mpr h) (by decide)
    · exact absurd (hkeys ▸ (push_mem_velocity ts lr v).mpr h) (by decide)
    · exact absurd (hkeys ▸ (push_mem_occupancy ts lr v).mpr h) (by decide)
    · exact absurd (hkeys ▸ (push_mem_progress_status ts lr v).mpr h) (by decide)
    · exact absurd (hkeys ▸ (push_mem_published_line_name ts lr v).mpr h) (by decide)
    · exact absurd (hkeys ▸ (push_mem_block_ref ts lr v).mpr h) (by decide)
    · exact absurd (hkeys ▸ (push_mem_monitored_call ts lr v).mpr h) (by decide)
    · exact absurd (hkeys ▸ (push_mem_onward_calls ts lr v).mpr h) (by decide)

/-- Witness for C9 at a record with a populated `Bearing`. -/
theorem dry_run_sixteen_fixed_keys_witness :
    keysOf (dryRunLogEntryFields "t0" "m1" { Bearing := 5 }) = baseEntryKeys ∧
    "bearing" ∉ keysOf (dryRunLogEntryFields "t0" "m1" { Bearing := 5 }) ∧
    vehicleLogEntryFields "t0" "m1" { Bearing := 5 } ≠
      dryRunLogEntryFields "t0" "m1" { Bearing := 5 } :=
  ⟨dry_run_sixteen_fixed_keys.1 "t0" "m1" { Bearing := 5 },
   dry_run_sixteen_fixed_keys.2.1 "t0" "m1" { Bearing := 5 } "bearing" (by decide),
   dry_run_sixteen_fixed_keys.2.2 "t0" "m1" { Bearing := 5 } (Or.inl (by decide))⟩

/-- A well-formed document with the full navigation path present whose
single vehicle activity has a `MonitoredVehicleJourney` with a one-byte
`DirectionRef`. -/
def oneByteDirectionDoc : List (String × XVal) :=
  [("Siri", XVal.obj
     [("ServiceDelivery", XVal.obj
       [("VehicleMonitoringDelivery", XVal.obj
         [("VehicleActivity", XVal.obj
           [("MonitoredVehicleJourney", XVal.obj
             [("DirectionRef", XVal.str "1")])])])])])]

/-- C4 (evidence of the divergence): a fatal outcome that is not a
top-level XML syntax error.  On a well-formed document whose
`Siri → ServiceDelivery → VehicleMonitoringDelivery` path is fully present
(first conjunct) and whose vehicle activity carries a
`MonitoredVehicleJourney` with a `DirectionRef` shorter than two bytes,
`ParseBusData` aborts — the Go code panics at
`strings.ToUpper(direction[:2])` inside `GenerateCompactBusImage` — so no
batch and no error value is produced, refuting the claim that only a
top-level syntax error is fatal. -/
theorem parse_fatal_on_well_formed_input :
    navigateToVMD oneByteDirectionDoc =
      some [("VehicleActivity", XVal.obj
        [("MonitoredVehicleJourney", XVal.obj [("DirectionRef", XVal.str "1")])])] ∧
    ParseBusData "m2" "2025-05-05T10:00:00.000Z" (Except.ok oneByteDirectionDoc) = none :=
  ⟨rfl, rfl⟩
